import Mathlib

/-!
Verification of the radiobs-bot core (`radiobsmatrix/core/main.py`).

The development shallowly embeds the Python source:

* `PyValue` models the dynamically-typed payload values the program
  manipulates (the result of `response.json()`, and more generally the
  Python values `RadioStatus.parse_list` can receive).
* `RadioStatus` mirrors the pydantic model of the same name: nine
  optional string fields, each defaulting to `None`.
* `RadioStatus.parse_list` and `RadioStatus.model_validate` embed the
  `mode="before"` validator plus pydantic-v2 field validation for
  `str | None` fields in lax mode: a missing key or an explicit `None`
  yields an absent field, a string is accepted, and any other value is a
  validation error.  A payload that, after the before-validator, is not
  a mapping is likewise a validation error, and the dict comprehension
  in `parse_list` raises `TypeError` on an unhashable key.  Python
  exceptions are modelled as `Except.error`.
* `displayTitle` embeds the song-title derivation of the poll loop,
  `shouldNotify` its change-detection condition, `pollIteration` /
  `pollRun` one iteration / a finite run of the `while True` loop, and
  `mainTrace` the operation trace of `main` over the matrix client
  (login, alias resolution, join, sends, logout, close), with the
  outcomes of the external calls supplied as parameters.  Matrix call
  failures are modelled as error *responses* (nio's response-based API),
  which is how the source observes them.
-/

/-- A Python value as manipulated by the source: the payloads handed to
`RadioStatus.model_validate` (JSON decoding produces `null`, booleans,
numbers, strings, lists and string-keyed dicts; `parse_list` itself is
written against arbitrary values, so tuples and non-string dict keys are
representable as well). -/
inductive PyValue : Type where
  | null : PyValue
  | bool : Bool → PyValue
  | int : Int → PyValue
  | str : String → PyValue
  | list : List PyValue → PyValue
  | tuple : List PyValue → PyValue
  | dict : List (PyValue × PyValue) → PyValue

mutual

/-- Python `==` on `PyValue`, structurally (the payload values the
program compares are strings, where this agrees with Python). -/
def pyEq : PyValue → PyValue → Bool
  | .null, .null => true
  | .bool a, .bool b => a == b
  | .int a, .int b => a == b
  | .str a, .str b => a == b
  | .list a, .list b => pyEqList a b
  | .tuple a, .tuple b => pyEqList a b
  | .dict a, .dict b => pyEqKV a b
  | _, _ => false

/-- Elementwise `pyEq` on lists. -/
def pyEqList : List PyValue → List PyValue → Bool
  | [], [] => true
  | a :: as, b :: bs => pyEq a b && pyEqList as bs
  | _, _ => false

/-- Elementwise `pyEq` on key-value lists. -/
def pyEqKV : List (PyValue × PyValue) → List (PyValue × PyValue) → Bool
  | [], [] => true
  | (ka, va) :: as, (kb, vb) :: bs => pyEq ka kb && pyEq va vb && pyEqKV as bs
  | _, _ => false

end

mutual

/-- Whether a Python value is hashable (usable as a dict key): lists and
dicts are not, tuples are hashable when all their elements are. -/
def hashable : PyValue → Bool
  | .list _ => false
  | .dict _ => false
  | .tuple xs => hashableList xs
  | _ => true

/-- `hashable` on every element of a list. -/
def hashableList : List PyValue → Bool
  | [] => true
  | x :: xs => hashable x && hashableList xs

end

/-- Python dict assignment `d[k] = v`: overwrite the value of an
existing key in place, otherwise append the new binding. -/
def dictInsert (kvs : List (PyValue × PyValue)) (k v : PyValue) :
    List (PyValue × PyValue) :=
  match kvs with
  | [] => [(k, v)]
  | (k', v') :: rest =>
      if pyEq k' k then (k', v) :: rest else (k', v') :: dictInsert rest k v

/-- Python dict lookup: the value of the last binding of `k` (a dict
literal with repeated keys keeps the last value). -/
def dictGet (kvs : List (PyValue × PyValue)) (k : PyValue) : Option PyValue :=
  ((kvs.filter fun p => pyEq p.1 k).getLast?).map Prod.snd

/-- A Python exception escaping `RadioStatus.model_validate`. -/
inductive PyError : Type where
  | typeError : PyError
  | validationError : PyError
deriving DecidableEq, Repr

/-- The pydantic model `RadioStatus`: nine `str | None = None` fields. -/
structure RadioStatus : Type where
  encoder : Option String := none
  filename : Option String := none
  initial_uri : Option String := none
  language : Option String := none
  rid : Option String := none
  status : Option String := none
  temporary : Option String := none
  title : Option String := none
  vendor : Option String := none
deriving DecidableEq, Repr

/-- The `RadioStatus` with every field absent (all pydantic defaults). -/
def RadioStatus.allAbsent : RadioStatus := {}

/-- Whether an element of a list payload is kept by the comprehension's
filter `isinstance(item, list) and len(item) == 2`. -/
def isPair : PyValue → Bool
  | .list xs => xs.length == 2
  | _ => false

/-- Python `isinstance(item, list)` on a `PyValue` (tuples, dicts,
strings and scalars are not lists). -/
def isPyList : PyValue → Bool
  | .list _ => true
  | _ => false

/-- The dict comprehension in `RadioStatus.parse_list`:
`{item[0]: item[1] for item in data if isinstance(item, list) and len(item) == 2}`,
folded left to right over `data` starting from `acc`; inserting an
unhashable key raises `TypeError`. -/
def buildDict : List PyValue → List (PyValue × PyValue) →
    Except PyError (List (PyValue × PyValue))
  | [], acc => .ok acc
  | item :: rest, acc =>
      match item with
      | .list [k, v] =>
          if hashable k then buildDict rest (dictInsert acc k v)
          else .error .typeError
      | _ => buildDict rest acc

/-- The `mode="before"` validator `RadioStatus.parse_list`: a list is
replaced by the dict built from its two-element list items; anything
else passes through unchanged. -/
def RadioStatus.parse_list (data : PyValue) : Except PyError PyValue :=
  match data with
  | .list items => (buildDict items []).map .dict
  | _ => .ok data

/-- Pydantic-v2 lax validation of one `str | None = None` field: a
missing key or an explicit `None` yields `none`, a string is accepted,
anything else is a validation error. -/
def getStrField (kvs : List (PyValue × PyValue)) (name : String) :
    Except PyError (Option String) :=
  match dictGet kvs (.str name) with
  | Option.none => .ok Option.none
  | Option.some v =>
      match v with
      | .null => .ok Option.none
      | .str s => .ok (Option.some s)
      | _ => .error .validationError

/-- `RadioStatus.model_validate`: run the before-validator, require a
mapping, then validate the nine declared fields (unknown keys are
ignored, missing keys take the `None` default). -/
def RadioStatus.model_validate (data : PyValue) : Except PyError RadioStatus := do
  let pre ← RadioStatus.parse_list data
  match pre with
  | .dict kvs => do
      let encoder ← getStrField kvs "encoder"
      let filename ← getStrField kvs "filename"
      let initial_uri ← getStrField kvs "initial_uri"
      let language ← getStrField kvs "language"
      let rid ← getStrField kvs "rid"
      let status ← getStrField kvs "status"
      let temporary ← getStrField kvs "temporary"
      let title ← getStrField kvs "title"
      let vendor ← getStrField kvs "vendor"
      pure { encoder, filename, initial_uri, language, rid, status,
             temporary, title, vendor }
  | _ => .error .validationError

/-- Python `f.split("/")[-1]` for the one-character separator `"/"`: the
suffix of `f` after its last `'/'` (the whole string when `'/'` does not
occur). -/
def splitLast (f : String) : String :=
  ⟨(f.data.reverse.takeWhile fun c => c != '/').reverse⟩

/-- Python `s.replace("_", " ")` for one-character pattern and
replacement: map every underscore to a space. -/
def replaceUnderscores (s : String) : String :=
  ⟨s.data.map fun c => if c == '_' then ' ' else c⟩

/-- The `if not song_title:` body of the derivation (`main.py` lines
119-123): the last path segment of a truthy `status.filename` with
underscores replaced by spaces, else `"Unknown Song"`. -/
def fallbackTitle (status : RadioStatus) : String :=
  match status.filename with
  | Option.some f =>
      if f == "" then "Unknown Song" else replaceUnderscores (splitLast f)
  | Option.none => "Unknown Song"

/-- The song-title derivation of the poll loop (`main.py` lines
118-123): take `status.title`; if it is falsy (`None` or the empty
string), use `fallbackTitle` instead. -/
def displayTitle (status : RadioStatus) : String :=
  match status.title with
  | Option.some t => if t == "" then fallbackTitle status else t
  | Option.none => fallbackTitle status

/-- The change-detection condition of the poll loop (`main.py` line
125): `if song_title and song_title != current_title:` — the candidate
string is truthy and differs from the stored previous title (comparing
a `str` with `Optional[str]`, so an unset previous title always
differs). -/
def shouldNotify (song_title : String) (current_title : Option String) : Bool :=
  (song_title != "") && (Option.some song_title != current_title)

/-- The configuration flags the loop body reads (`matrix_send_messages`
and `matrix_update_topic`). -/
structure Env : Type where
  send_messages : Bool
  update_topic : Bool
deriving DecidableEq, Repr

/-- The external outcomes of one loop iteration: `fetch` is the payload
decoded from the HTTP response, or `none` when the fetch step raises
(`httpx.HTTPError` from `get`/`raise_for_status`, or a JSON decoding
error); `sendFails` / `topicFails` say whether `room_send` /
`room_put_state`, if called, return an error response. -/
structure IterInput : Type where
  fetch : Option PyValue
  sendFails : Bool
  topicFails : Bool

/-- One call made on the matrix client, as recorded in the trace of
`main`; the `Bool` on `roomSend` / `roomPutState` records whether the
call returned a success response. -/
inductive ClientOp : Type where
  | login : ClientOp
  | resolveAlias : ClientOp
  | join : ClientOp
  | roomSend : Bool → ClientOp
  | roomPutState : Bool → ClientOp
  | logout : ClientOp
  | close : ClientOp
deriving DecidableEq, Repr

/-- The observable result of one iteration of the `while True` loop:
the value of `current_title` afterwards, whether the changed branch
dispatched (was entered), which matrix calls it performed, and — when it
dispatched — whether the "Initial song" (`true`) or "Music changed"
(`false`) log line was emitted. -/
structure IterOut : Type where
  current_title : Option String
  dispatched : Bool
  ops : List ClientOp
  logInitial : Option Bool
deriving DecidableEq, Repr

/-- One iteration of the poll loop (`main.py` lines 110-171): a failed
fetch, or any exception while validating, is caught by the `except`
arms and leaves the state untouched; otherwise the song title is
derived, and when `shouldNotify` holds the loop sends the message and/or
updates the topic per the flags and then reassigns `current_title`. -/
def pollIteration (env : Env) (st : Option String) (inp : IterInput) : IterOut :=
  match inp.fetch with
  | Option.none => ⟨st, false, [], Option.none⟩
  | Option.some payload =>
      match RadioStatus.model_validate payload with
      | .error _ => ⟨st, false, [], Option.none⟩
      | .ok status =>
          let song_title := displayTitle status
          if shouldNotify song_title st then
            ⟨Option.some song_title, true,
             (if env.send_messages then [ClientOp.roomSend (!inp.sendFails)] else []) ++
               (if env.update_topic then [ClientOp.roomPutState (!inp.topicFails)] else []),
             Option.some (st == Option.none)⟩
          else ⟨st, false, [], Option.none⟩

/-- The observable result of a finite run of the poll loop: the final
`current_title`, how many iterations dispatched a notification, and the
concatenated matrix calls. -/
structure RunOut : Type where
  current_title : Option String
  notifications : Nat
  ops : List ClientOp
deriving DecidableEq, Repr

/-- A finite run of the `while True` loop from state `st`, one
`IterInput` per iteration. -/
def pollRun (env : Env) (st : Option String) : List IterInput → RunOut
  | [] => ⟨st, 0, []⟩
  | inp :: rest =>
      let out := pollIteration env st inp
      let r := pollRun env out.current_title rest
      ⟨r.current_title, (if out.dispatched then 1 else 0) + r.notifications,
       out.ops ++ r.ops⟩

/-- The settings `main` reads before the required-config check. -/
structure Config : Type where
  user : String
  password : String
  room_id : String
  api_url : String
  send_messages : Bool
  update_topic : Bool
deriving DecidableEq, Repr

/-- The required-config check of `main` (`if not all([...])`): all four
required strings are truthy. -/
def configOk (c : Config) : Bool :=
  (c.user != "") && (c.password != "") && (c.room_id != "") && (c.api_url != "")

/-- The outcome of one matrix setup call: a success response, an error
response (`LoginError` / `RoomResolveAliasError` / `JoinError`), or a
raised exception (caught by the setup `except`). -/
inductive CallRes : Type where
  | ok : CallRes
  | err : CallRes
  | exn : CallRes
deriving DecidableEq, Repr

/-- The outcomes of the three setup calls of `main`. -/
structure SetupEnv : Type where
  loginRes : CallRes
  resolveRes : CallRes
  joinRes : CallRes
deriving DecidableEq, Repr

/-- The join step and the poll loop of `main` (lines 91-177): a
`JoinError` response logs out and closes; a raised exception is caught
by the setup `except`, which closes; on success the loop runs inside
`try/finally`, whose `finally` always logs out and closes. -/
def joinAndLoop (c : Config) (senv : SetupEnv) (iters : List IterInput) :
    List ClientOp :=
  ClientOp.join ::
    match senv.joinRes with
    | .err => [ClientOp.logout, ClientOp.close]
    | .exn => [ClientOp.close]
    | .ok =>
        (pollRun ⟨c.send_messages, c.update_topic⟩ Option.none iters).ops ++
          [ClientOp.logout, ClientOp.close]

/-- The trace of matrix-client calls performed by `main` (lines
42-177).  A missing required setting returns before the client is
created (empty trace).  Otherwise: login (an error response or a raised
exception closes and returns); alias resolution when the room id starts
with `"#"` (an error response logs out, closes and returns; an
exception closes and returns); then `joinAndLoop`.  The loop exits only
by an exception escaping it (e.g. cancellation), which the `finally`
block follows with logout and close; `iters` are the iterations that
ran before that exit. -/
def mainTrace (c : Config) (senv : SetupEnv) (iters : List IterInput) :
    List ClientOp :=
  if configOk c then
    ClientOp.login ::
      match senv.loginRes with
      | .err => [ClientOp.close]
      | .exn => [ClientOp.close]
      | .ok =>
          if c.room_id.startsWith "#" then
            ClientOp.resolveAlias ::
              match senv.resolveRes with
              | .err => [ClientOp.logout, ClientOp.close]
              | .exn => [ClientOp.close]
              | .ok => joinAndLoop c senv iters
          else joinAndLoop c senv iters
  else []

/-- The number of `close` calls in a trace. -/
def countClose (ops : List ClientOp) : Nat :=
  ops.countP fun o => o == ClientOp.close

/-! ### Helper lemmas -/

/-- A string is nonempty iff its character list is. -/
lemma str_ne_empty_iff (s : String) : s ≠ "" ↔ s.data ≠ [] := by
  constructor
  · intro h hd
    exact h (by cases s; simp_all)
  · intro h hs
    exact h (by simp [hs])

/-- `replaceUnderscores` preserves nonemptiness. -/
lemma replaceUnderscores_ne_empty (s : String) (h : s ≠ "") :
    replaceUnderscores s ≠ "" := by
  rw [str_ne_empty_iff] at h ⊢
  simpa [replaceUnderscores] using h

/-- The suffix after the last slash is nonempty when the string is
nonempty and does not end with a slash. -/
lemma splitLast_ne_empty (f : String) (hf : f ≠ "")
    (h : f.data.getLast? ≠ Option.some '/') : splitLast f ≠ "" := by
  rw [str_ne_empty_iff] at hf ⊢
  unfold splitLast
  rcases hrev : f.data.reverse with _ | ⟨c, rest⟩
  · exact absurd (by simpa using hrev) hf
  · have hc : c ≠ '/' := by
      intro hcc
      apply h
      rw [← List.head?_reverse, hrev, hcc]
      rfl
    simp [hrev, List.takeWhile_cons, hc]

/-- The fallback title is nonempty whenever the filename, if any, does
not end with a slash. -/
lemma fallbackTitle_ne_empty (st : RadioStatus)
    (h : ∀ f, st.filename = Option.some f → f.data.getLast? ≠ Option.some '/') :
    fallbackTitle st ≠ "" := by
  unfold fallbackTitle
  rcases hf : st.filename with _ | f
  · decide
  · by_cases h0 : f = ""
    · simp [h0]
    · dsimp only
      rw [if_neg (by simpa using h0)]
      exact replaceUnderscores_ne_empty _
        (splitLast_ne_empty f h0 (h f hf))

/-! ### C2: DisplayTitle is never empty -/

/-- C2 (counterexample): the record with `title` absent and
`filename = "/"` derives the empty DisplayTitle — the last path segment
of `"/"` is empty, so the invariant "DisplayTitle is never empty" fails
on this `RadioStatus`. -/
theorem displayTitle_empty_counterexample :
    displayTitle { filename := Option.some "/" } = "" ∧
    RadioStatus.model_validate (.dict [(.str "filename", .str "/")]) =
      Except.ok { filename := Option.some "/" } := by
  constructor <;> rfl

/-- C2 (amended): the derived DisplayTitle is nonempty for every
`RadioStatus` whose filename, if present, does not end with `'/'`; a
present nonempty title, or an absent/empty filename, always yields a
nonempty title, and the fallback path yields the empty string exactly
when the filename's last path segment is empty. -/
theorem displayTitle_nonempty (st : RadioStatus)
    (h : ∀ f, st.filename = Option.some f → f.data.getLast? ≠ Option.some '/') :
    displayTitle st ≠ "" := by
  unfold displayTitle
  rcases ht : st.title with _ | t
  · exact fallbackTitle_ne_empty st h
  · by_cases h0 : t = ""
    · simpa [h0] using fallbackTitle_ne_empty st h
    · dsimp only
      rw [if_neg (by simpa using h0)]
      exact h0

/-- C2 witness: the amended theorem applied to a concrete record. -/
theorem displayTitle_nonempty_witness :
    displayTitle { filename := Option.some "/mnt/music/My_Song.mp3" } ≠ "" :=
  displayTitle_nonempty { filename := Option.some "/mnt/music/My_Song.mp3" }
    (by intro f hf; cases hf; decide)

/-! ### C6: DisplayTitle derivation -/

/-- C6 (counterexample): a present but empty `title` is not returned
unchanged — Python's truthiness test sends it to the fallback, so the
record with `title = ""` derives `"Unknown Song"`, not `""`. -/
theorem displayTitle_title_counterexample :
    displayTitle { title := Option.some "" } = "Unknown Song" ∧
    displayTitle { title := Option.some "" } ≠ "" := by
  constructor
  · rfl
  · decide

/-- C6 (amended): a present *nonempty* title is returned unchanged
(e.g. `"Song A"`); with title absent and
`filename = "/mnt/music/My_Song.mp3"` the result is `"My Song.mp3"`;
with both absent the result is `"Unknown Song"`. -/
theorem displayTitle_derivation :
    (∀ (st : RadioStatus) (t : String), st.title = Option.some t → t ≠ "" →
      displayTitle st = t) ∧
    displayTitle { filename := Option.some "/mnt/music/My_Song.mp3" } =
      "My Song.mp3" ∧
    displayTitle {} = "Unknown Song" ∧
    displayTitle { title := Option.some "Song A" } = "Song A" := by
  refine ⟨?_, rfl, rfl, rfl⟩
  intro st t h ht
  simp [displayTitle, h, ht]

/-- C6 witness: the general clause of the amended theorem applied to a
concrete record. -/
theorem displayTitle_derivation_witness :
    displayTitle { title := Option.some "Song A" } = "Song A" :=
  displayTitle_derivation.1 { title := Option.some "Song A" } "Song A" rfl
    (by decide)

/-! ### C5: the notification decision -/

/-- C5: `shouldNotify` is true exactly when the candidate title is
nonempty and differs from the stored previous title (in particular on
the very first poll, where the previous title is unset); it is false
when the candidate equals the previous title; and between an
initial-song iteration and a changed-song iteration the resulting
state, matrix calls and dispatch decision coincide — only the log
wording (`logInitial`) can differ. -/
theorem shouldNotify_spec :
    (∀ (t : String) (cur : Option String),
      shouldNotify t cur = true ↔ t ≠ "" ∧ Option.some t ≠ cur) ∧
    (∀ t : String, shouldNotify t (Option.some t) = false) ∧
    shouldNotify "Track 1" Option.none = true ∧
    shouldNotify "Track 1" (Option.some "Track 1") = false ∧
    shouldNotify "Track 2" (Option.some "Track 1") = true ∧
    (∀ (env : Env) (inp : IterInput) (payload : PyValue)
      (status : RadioStatus) (st₁ st₂ : Option String),
      inp.fetch = Option.some payload →
      RadioStatus.model_validate payload = Except.ok status →
      shouldNotify (displayTitle status) st₁ = true →
      shouldNotify (displayTitle status) st₂ = true →
      (pollIteration env st₁ inp).current_title =
        (pollIteration env st₂ inp).current_title ∧
      (pollIteration env st₁ inp).ops = (pollIteration env st₂ inp).ops ∧
      (pollIteration env st₁ inp).dispatched =
        (pollIteration env st₂ inp).dispatched) := by
  refine ⟨?_, ?_, by decide, by decide, by decide, ?_⟩
  · intro t cur
    simp [shouldNotify]
  · intro t
    simp [shouldNotify]
  · intro env inp payload status st₁ st₂ hf hv h₁ h₂
    simp [pollIteration, hf, hv, h₁, h₂]

/-- C5 witness: the last clause of the theorem at a concrete initial
iteration versus a concrete changed iteration. -/
theorem shouldNotify_spec_witness :
    (pollIteration ⟨true, true⟩ Option.none
        ⟨Option.some (.dict [(.str "title", .str "Track 2")]), false, false⟩).ops =
      (pollIteration ⟨true, true⟩ (Option.some "Track 1")
        ⟨Option.some (.dict [(.str "title", .str "Track 2")]), false, false⟩).ops :=
  (shouldNotify_spec.2.2.2.2.2 ⟨true, true⟩
    ⟨Option.some (.dict [(.str "title", .str "Track 2")]), false, false⟩
    (.dict [(.str "title", .str "Track 2")]) { title := Option.some "Track 2" }
    Option.none (Option.some "Track 1") rfl rfl (by decide) (by decide)).2.1

/-! ### C1: totality of normalization -/

/-- Items skipped by the comprehension's filter leave the accumulated
dict unchanged. -/
lemma buildDict_skip_all (items : List PyValue)
    (h : ∀ it ∈ items, isPair it = false) (acc : List (PyValue × PyValue)) :
    buildDict items acc = .ok acc := by
  induction items generalizing acc with
  | nil => rfl
  | cons item rest ih =>
    have hitem := h item (List.mem_cons_self item rest)
    have hrest : ∀ it ∈ rest, isPair it = false := fun it hit =>
      h it (List.mem_cons_of_mem item hit)
    cases item with
    | list xs =>
      rcases xs with _ | ⟨a, _ | ⟨b, _ | ⟨c, t⟩⟩⟩
      · simpa [buildDict] using ih hrest acc
      · simpa [buildDict] using ih hrest acc
      · simp [isPair] at hitem
      · simpa [buildDict] using ih hrest acc
    | null => simpa [buildDict] using ih hrest acc
    | bool b => simpa [buildDict] using ih hrest acc
    | int n => simpa [buildDict] using ih hrest acc
    | str s => simpa [buildDict] using ih hrest acc
    | tuple xs => simpa [buildDict] using ih hrest acc
    | dict kvs => simpa [buildDict] using ih hrest acc

/-- C1 (counterexample): a plain number does not yield an all-absent
`StatusRecord`; `model_validate` raises (pydantic requires a mapping
after the before-validator), so normalization is not total. -/
theorem model_validate_number_counterexample :
    RadioStatus.model_validate (.int 5) =
      Except.error PyError.validationError ∧
    RadioStatus.model_validate (.int 5) ≠ Except.ok RadioStatus.allAbsent := by
  constructor
  · rfl
  · intro hcontra
    exact Except.noConfusion ((rfl :
      RadioStatus.model_validate (.int 5) = Except.error PyError.validationError)
        ▸ hcontra)

/-- C1 (amended): building a `StatusRecord` from a list payload none of
whose items passes the pair filter (for example the empty list, or
pairs of length other than 2) succeeds with every field absent; but
validation is not total: an input that is neither a mapping nor a list,
such as a plain number, raises a `ValidationError` (caught by the poll
loop's per-iteration handler) instead of yielding an all-absent
record. -/
theorem model_validate_shapes :
    (∀ items : List PyValue, (∀ it ∈ items, isPair it = false) →
      RadioStatus.model_validate (.list items) = Except.ok RadioStatus.allAbsent) ∧
    (∀ n : Int, RadioStatus.model_validate (.int n) =
      Except.error PyError.validationError) ∧
    RadioStatus.model_validate (.list []) = Except.ok RadioStatus.allAbsent := by
  refine ⟨?_, fun n => rfl, rfl⟩
  intro items h
  have hb := buildDict_skip_all items h []
  simp [RadioStatus.model_validate, RadioStatus.parse_list, hb]
  rfl

/-- C1 witness: the amended theorem applied to a list of malformed
pairs (a number, a one-element pair, a three-element pair). -/
theorem model_validate_shapes_witness :
    RadioStatus.model_validate
        (.list [.int 7, .list [.str "title"],
                .list [.str "a", .str "b", .str "c"]]) =
      Except.ok RadioStatus.allAbsent ∧
    RadioStatus.model_validate (.int 3) = Except.error PyError.validationError :=
  ⟨model_validate_shapes.1
      [.int 7, .list [.str "title"], .list [.str "a", .str "b", .str "c"]]
      (by decide),
    model_validate_shapes.2.1 3⟩

/-! ### C3: the state advances after the dispatch attempt -/

/-- C3: when an iteration detects a change, `current_title` is
reassigned to the new DisplayTitle whatever the outcomes of the
`room_send` / `room_put_state` calls (quantified `sf`, `tf`), the
dispatch attempts are recorded per the flags, and a following iteration
with the same payload neither dispatches again nor moves the state —
the detector advances exactly once per distinct detected change. -/
theorem state_advances_after_dispatch (env : Env) (st : Option String)
    (payload : PyValue) (status : RadioStatus) (sf tf sf' tf' : Bool)
    (hv : RadioStatus.model_validate payload = Except.ok status)
    (hn : shouldNotify (displayTitle status) st = true) :
    (pollIteration env st ⟨Option.some payload, sf, tf⟩).current_title =
      Option.some (displayTitle status) ∧
    (pollIteration env st ⟨Option.some payload, sf, tf⟩).dispatched = true ∧
    (pollIteration env st ⟨Option.some payload, sf, tf⟩).ops =
      (if env.send_messages then [ClientOp.roomSend (!sf)] else []) ++
        (if env.update_topic then [ClientOp.roomPutState (!tf)] else []) ∧
    (pollIteration env (Option.some (displayTitle status))
        ⟨Option.some payload, sf', tf'⟩).dispatched = false ∧
    (pollIteration env (Option.some (displayTitle status))
        ⟨Option.some payload, sf', tf'⟩).current_title =
      Option.some (displayTitle status) := by
  have hself : shouldNotify (displayTitle status)
      (Option.some (displayTitle status)) = false := by
    simp [shouldNotify]
  refine ⟨?_, ?_, ?_, ?_, ?_⟩ <;>
    simp [pollIteration, hv, hn, hself]

/-- C3 witness: a send failure (`sf = true`) on "Track 2" still
advances the state, and the next successful poll with "Track 2" does
not dispatch again. -/
theorem state_advances_after_dispatch_witness :
    (pollIteration ⟨true, true⟩ (Option.some "Track 1")
        ⟨Option.some (.dict [(.str "title", .str "Track 2")]), true, true⟩).current_title =
      Option.some "Track 2" ∧
    (pollIteration ⟨true, true⟩ (Option.some "Track 2")
        ⟨Option.some (.dict [(.str "title", .str "Track 2")]), false, false⟩).dispatched =
      false := by
  have h := state_advances_after_dispatch ⟨true, true⟩ (Option.some "Track 1")
    (.dict [(.str "title", .str "Track 2")]) { title := Option.some "Track 2" }
    true true false false rfl (by decide)
  exact ⟨h.1, h.2.2.2.1⟩

/-! ### C7: fetch or parse failures leave the state untouched -/

/-- C7: an iteration whose fetch fails, or whose payload fails
validation, leaves `current_title` unchanged and dispatches nothing;
in particular, after "Track 1" is recorded, a fetch failure followed by
a poll returning `{"title": "Track 1"}` produces no notification and
keeps the state at "Track 1". -/
theorem fetch_failure_preserves_state :
    (∀ (env : Env) (st : Option String) (inp : IterInput),
      (inp.fetch = Option.none ∨ ∃ p, inp.fetch = Option.some p ∧
        (RadioStatus.model_validate p).isOk = false) →
      (pollIteration env st inp).current_title = st ∧
      (pollIteration env st inp).dispatched = false ∧
      (pollIteration env st inp).ops = []) ∧
    (pollRun ⟨true, true⟩ (Option.some "Track 1")
        [⟨Option.none, false, false⟩,
         ⟨Option.some (.dict [(.str "title", .str "Track 1")]), false,
          false⟩]).notifications = 0 ∧
    (pollRun ⟨true, true⟩ (Option.some "Track 1")
        [⟨Option.none, false, false⟩,
         ⟨Option.some (.dict [(.str "title", .str "Track 1")]), false,
          false⟩]).current_title = Option.some "Track 1" := by
  refine ⟨?_, by decide, by decide⟩
  intro env st inp h
  rcases h with h | ⟨p, hp, hbad⟩
  · simp [pollIteration, h]
  · rcases hv : RadioStatus.model_validate p with e | status
    · simp [pollIteration, hp, hv]
    · rw [hv] at hbad
      simp [Except.isOk, Except.toBool] at hbad

/-- C7 witness: the general clause applied to a failed fetch. -/
theorem fetch_failure_preserves_state_witness :
    (pollIteration ⟨true, false⟩ (Option.some "Track 1")
        ⟨Option.none, false, false⟩).current_title = Option.some "Track 1" :=
  (fetch_failure_preserves_state.1 ⟨true, false⟩ (Option.some "Track 1")
    ⟨Option.none, false, false⟩ (Or.inl rfl)).1

/-! ### C8: identical payloads dispatch at most once -/

/-- A run all of whose fetches return a payload on which the current
state never triggers a notification leaves the state and the
notification count unchanged. -/
lemma pollRun_stuck (env : Env) (payload : PyValue) (st : Option String)
    (inps : List IterInput) (hfetch : ∀ i ∈ inps, i.fetch = Option.some payload)
    (hno : ∀ status, RadioStatus.model_validate payload = Except.ok status →
      shouldNotify (displayTitle status) st = false) :
    (pollRun env st inps).current_title = st ∧
    (pollRun env st inps).notifications = 0 := by
  induction inps with
  | nil => exact ⟨rfl, rfl⟩
  | cons i rest ih =>
    have hi := hfetch i (List.mem_cons_self i rest)
    have hrest : ∀ j ∈ rest, j.fetch = Option.some payload := fun j hj =>
      hfetch j (List.mem_cons_of_mem i hj)
    have hstep : pollIteration env st i = ⟨st, false, [], Option.none⟩ := by
      rcases hv : RadioStatus.model_validate payload with e | status
      · simp [pollIteration, hi, hv]
      · simp [pollIteration, hi, hv, hno status hv]
    have := ih hrest
    simp [pollRun, hstep]
    exact this

/-- C8 (counterexample): two polls both returning the payload `5`
(which fails validation) dispatch zero notifications, not exactly
one. -/
theorem identical_payloads_counterexample :
    (pollRun ⟨true, false⟩ Option.none
        [⟨Option.some (.int 5), false, false⟩,
         ⟨Option.some (.int 5), false, false⟩]).notifications = 0 ∧
    (pollRun ⟨true, false⟩ Option.none
        [⟨Option.some (.int 5), false, false⟩,
         ⟨Option.some (.int 5), false, false⟩]).notifications ≠ 1 := by
  constructor
  · rfl
  · decide

/-- C8 (amended): over any non-empty run, starting from the unset
state, in which every fetch returns the same payload, at most one
notification is dispatched: exactly one when the payload validates to a
record with nonempty DisplayTitle, and zero when validation fails or
the derived title is empty. -/
theorem identical_payloads_dispatch_once (env : Env) (payload : PyValue)
    (inps : List IterInput) (hne : inps ≠ [])
    (hfetch : ∀ i ∈ inps, i.fetch = Option.some payload) :
    (pollRun env Option.none inps).notifications =
      (match RadioStatus.model_validate payload with
       | Except.ok status => if displayTitle status == "" then 0 else 1
       | Except.error _ => 0) := by
  rcases inps with _ | ⟨i, rest⟩
  · exact absurd rfl hne
  · have hi := hfetch i (List.mem_cons_self i rest)
    have hrest : ∀ j ∈ rest, j.fetch = Option.some payload := fun j hj =>
      hfetch j (List.mem_cons_of_mem i hj)
    rcases hv : RadioStatus.model_validate payload with e | status
    · have := pollRun_stuck env payload Option.none (i :: rest)
        hfetch (fun status h => by rw [hv] at h; exact Except.noConfusion h)
      simp [this.2]
    · by_cases h0 : displayTitle status = ""
      · have := pollRun_stuck env payload Option.none (i :: rest) hfetch
          (fun status' h => by
            rw [hv] at h
            cases h
            simp [shouldNotify, h0])
        simp [this.2, h0]
      · have hn : shouldNotify (displayTitle status) Option.none = true := by
          simp [shouldNotify, h0]
        have hstep : pollIteration env Option.none i =
            ⟨Option.some (displayTitle status), true,
             (if env.send_messages then [ClientOp.roomSend (!i.sendFails)] else []) ++
               (if env.update_topic then [ClientOp.roomPutState (!i.topicFails)] else []),
             Option.some true⟩ := by
          simp [pollIteration, hi, hv, hn]
        have hrest0 := pollRun_stuck env payload
          (Option.some (displayTitle status)) rest hrest
          (fun status' h => by
            rw [hv] at h
            cases h
            simp [shouldNotify])
        simp [pollRun, hstep, hrest0.2, h0]

/-- C8 witness: three identical polls of `{"title": "Track 1"}` from
the unset state dispatch exactly one notification. -/
theorem identical_payloads_dispatch_once_witness :
    (pollRun ⟨true, true⟩ Option.none
        [⟨Option.some (.dict [(.str "title", .str "Track 1")]), false, false⟩,
         ⟨Option.some (.dict [(.str "title", .str "Track 1")]), false, false⟩,
         ⟨Option.some (.dict [(.str "title", .str "Track 1")]), false,
          false⟩]).notifications =
      (match RadioStatus.model_validate (.dict [(.str "title", .str "Track 1")]) with
       | Except.ok status => if displayTitle status == "" then 0 else 1
       | Except.error _ => 0) :=
  identical_payloads_dispatch_once ⟨true, true⟩
    (.dict [(.str "title", .str "Track 1")])
    [⟨Option.some (.dict [(.str "title", .str "Track 1")]), false, false⟩,
     ⟨Option.some (.dict [(.str "title", .str "Track 1")]), false, false⟩,
     ⟨Option.some (.dict [(.str "title", .str "Track 1")]), false, false⟩]
    (List.cons_ne_nil _ _) (by intro i hi; fin_cases hi <;> rfl)

/-! ### C9: the previous-title cell is unset or nonempty, and stays set -/

/-- One iteration keeps `current_title` either unset or a nonempty
string. -/
lemma pollIteration_inv (env : Env) (st : Option String) (inp : IterInput)
    (h : st = Option.none ∨ ∃ t, st = Option.some t ∧ t ≠ "") :
    (pollIteration env st inp).current_title = Option.none ∨
    ∃ t, (pollIteration env st inp).current_title = Option.some t ∧ t ≠ "" := by
  rcases hf : inp.fetch with _ | payload
  · simpa [pollIteration, hf] using h
  · rcases hv : RadioStatus.model_validate payload with e | status
    · simpa [pollIteration, hf, hv] using h
    · rcases hn : shouldNotify (displayTitle status) st with _ | _
      · simpa [pollIteration, hf, hv, hn] using h
      · refine Or.inr ⟨displayTitle status, by simp [pollIteration, hf, hv, hn], ?_⟩
        have hn' := hn
        simp [shouldNotify] at hn'
        exact hn'.1

/-- One iteration never clears a set `current_title`. -/
lemma pollIteration_not_none (env : Env) (st : Option String)
    (inp : IterInput) (h : st ≠ Option.none) :
    (pollIteration env st inp).current_title ≠ Option.none := by
  rcases hf : inp.fetch with _ | payload
  · simpa [pollIteration, hf] using h
  · rcases hv : RadioStatus.model_validate payload with e | status
    · simpa [pollIteration, hf, hv] using h
    · rcases hn : shouldNotify (displayTitle status) st with _ | _
      · simpa [pollIteration, hf, hv, hn] using h
      · simp [pollIteration, hf, hv, hn]

/-- A run keeps `current_title` either unset or nonempty. -/
lemma pollRun_inv (env : Env) (inps : List IterInput) (st : Option String)
    (h : st = Option.none ∨ ∃ t, st = Option.some t ∧ t ≠ "") :
    (pollRun env st inps).current_title = Option.none ∨
    ∃ t, (pollRun env st inps).current_title = Option.some t ∧ t ≠ "" := by
  induction inps generalizing st with
  | nil => simpa [pollRun] using h
  | cons i rest ih =>
    simpa [pollRun] using ih _ (pollIteration_inv env st i h)

/-- A run never clears a set `current_title`. -/
lemma pollRun_not_none (env : Env) (inps : List IterInput)
    (st : Option String) (h : st ≠ Option.none) :
    (pollRun env st inps).current_title ≠ Option.none := by
  induction inps generalizing st with
  | nil => simpa [pollRun] using h
  | cons i rest ih =>
    simpa [pollRun] using ih _ (pollIteration_not_none env st i h)

/-- Running an appended list of iterations is running the second list
from the state the first list reaches. -/
lemma pollRun_append (env : Env) (l₁ l₂ : List IterInput)
    (st : Option String) :
    (pollRun env st (l₁ ++ l₂)).current_title =
      (pollRun env (pollRun env st l₁).current_title l₂).current_title := by
  induction l₁ generalizing st with
  | nil => simp [pollRun]
  | cons i rest ih => simp [pollRun, ih]

/-- C9: at every point of a run started from the unset state, the
previous-title cell is either unset or a nonempty string, and once it
is set after some prefix it is still set after any longer prefix. -/
theorem current_title_state_invariant (env : Env) (inps : List IterInput)
    (n m : Nat) (hnm : n ≤ m) :
    ((pollRun env Option.none (inps.take n)).current_title = Option.none ∨
      ∃ t, (pollRun env Option.none (inps.take n)).current_title =
        Option.some t ∧ t ≠ "") ∧
    ((pollRun env Option.none (inps.take n)).current_title ≠ Option.none →
      (pollRun env Option.none (inps.take m)).current_title ≠ Option.none) := by
  refine ⟨pollRun_inv env (inps.take n) Option.none (Or.inl rfl), ?_⟩
  intro hset
  have hdecomp : inps.take m = inps.take n ++ (inps.drop n).take (m - n) := by
    rw [← List.take_add]
    congr 1
    omega
  rw [hdecomp, pollRun_append]
  exact pollRun_not_none env _ _ hset

/-- C9 witness: the theorem at a concrete two-iteration run. -/
theorem current_title_state_invariant_witness :
    ((pollRun ⟨true, true⟩ Option.none
        ([⟨Option.some (.dict [(.str "title", .str "Track 1")]), false, false⟩,
          ⟨Option.none, false, false⟩].take 1)).current_title = Option.none ∨
      ∃ t, (pollRun ⟨true, true⟩ Option.none
        ([⟨Option.some (.dict [(.str "title", .str "Track 1")]), false, false⟩,
          ⟨Option.none, false, false⟩].take 1)).current_title =
          Option.some t ∧ t ≠ "") ∧
    ((pollRun ⟨true, true⟩ Option.none
        ([⟨Option.some (.dict [(.str "title", .str "Track 1")]), false, false⟩,
          ⟨Option.none, false, false⟩].take 1)).current_title ≠ Option.none →
      (pollRun ⟨true, true⟩ Option.none
        ([⟨Option.some (.dict [(.str "title", .str "Track 1")]), false, false⟩,
          ⟨Option.none, false, false⟩].take 2)).current_title ≠ Option.none) :=
  current_title_state_invariant ⟨true, true⟩
    [⟨Option.some (.dict [(.str "title", .str "Track 1")]), false, false⟩,
     ⟨Option.none, false, false⟩] 1 2 (by decide)

/-! ### C10: duplicate field names and skipped non-list items -/

/-- C10: in a list payload, an item that is not a Python list (a tuple,
a dict, a string, a scalar) is skipped entirely by the comprehension,
wherever it occurs; and when several pairs carry the same field name
the normalized record takes the value of the last such pair. -/
theorem parse_list_last_pair_wins :
    (∀ (l₁ l₂ : List PyValue) (item : PyValue)
      (acc : List (PyValue × PyValue)), isPyList item = false →
      buildDict (l₁ ++ item :: l₂) acc = buildDict (l₁ ++ l₂) acc) ∧
    (∀ v₁ v₂ x : String,
      RadioStatus.model_validate (.list
        [.list [.str "title", .str v₁], .list [.str "encoder", .str x],
         .list [.str "title", .str v₂]]) =
      Except.ok { title := Option.some v₂, encoder := Option.some x }) ∧
    RadioStatus.model_validate (.list [.tuple [.str "title", .str "A"]]) =
      Except.ok RadioStatus.allAbsent := by
  refine ⟨?_, fun v₁ v₂ x => rfl, rfl⟩
  intro l₁ l₂ item acc hitem
  induction l₁ generalizing acc with
  | nil =>
    cases item <;> simp_all [buildDict, isPyList]
  | cons hd rest ih =>
    cases hd with
    | list xs =>
      rcases xs with _ | ⟨a, _ | ⟨b, _ | ⟨c, t⟩⟩⟩
      · simpa [buildDict] using ih acc
      · simpa [buildDict] using ih acc
      · by_cases ha : hashable a
        · simpa [buildDict, ha] using ih (dictInsert acc a b)
        · simp [buildDict, ha]
      · simpa [buildDict] using ih acc
    | null => simpa [buildDict] using ih acc
    | bool b => simpa [buildDict] using ih acc
    | int n => simpa [buildDict] using ih acc
    | str s => simpa [buildDict] using ih acc
    | tuple xs => simpa [buildDict] using ih acc
    | dict kvs => simpa [buildDict] using ih acc

/-- C10 witness: skipping a concrete tuple item between two pairs. -/
theorem parse_list_last_pair_wins_witness :
    buildDict [.list [.str "title", .str "A"], .tuple [.str "x", .str "y"],
        .list [.str "vendor", .str "V"]] [] =
      buildDict [.list [.str "title", .str "A"],
        .list [.str "vendor", .str "V"]] [] :=
  parse_list_last_pair_wins.1 [.list [.str "title", .str "A"]]
    [.list [.str "vendor", .str "V"]] (.tuple [.str "x", .str "y"]) [] rfl

/-! ### C4: close is invoked exactly once on every exit path -/

/-- The loop body never calls `close`. -/
lemma pollIteration_no_close (env : Env) (st : Option String)
    (inp : IterInput) : countClose (pollIteration env st inp).ops = 0 := by
  rcases hf : inp.fetch with _ | payload
  · simp [pollIteration, hf, countClose]
  · rcases hv : RadioStatus.model_validate payload with e | status
    · simp [pollIteration, hf, hv, countClose]
    · rcases hn : shouldNotify (displayTitle status) st with _ | _
      · simp [pollIteration, hf, hv, hn, countClose]
      · rcases h₁ : env.send_messages with _ | _ <;>
          rcases h₂ : env.update_topic with _ | _ <;>
            simp [pollIteration, hf, hv, hn, h₁, h₂, countClose]

/-- The whole poll loop never calls `close`. -/
lemma pollRun_no_close (env : Env) (inps : List IterInput)
    (st : Option String) : countClose (pollRun env st inps).ops = 0 := by
  induction inps generalizing st with
  | nil => rfl
  | cons i rest ih =>
    simp [pollRun, countClose, List.countP_append]
    constructor
    · simpa [countClose] using pollIteration_no_close env st i
    · simpa [countClose] using ih (pollIteration env st i).current_title

/-- C4: whenever the required settings are present (so the matrix
client is created), every exit path of `main` — a login error or
exception, an alias-resolution error or exception, a join error or
exception, or the poll loop ending for any reason — calls the client's
`close` exactly once. -/
theorem close_called_once (c : Config) (senv : SetupEnv)
    (iters : List IterInput) (hcfg : configOk c = true) :
    countClose (mainTrace c senv iters) = 1 := by
  obtain ⟨lr, rr, jr⟩ := senv
  have hloop := pollRun_no_close ⟨c.send_messages, c.update_topic⟩ iters
    Option.none
  unfold mainTrace joinAndLoop
  rw [if_pos hcfg]
  unfold countClose at hloop ⊢
  cases lr <;> cases rr <;> cases jr <;>
    cases hr : c.room_id.startsWith "#" <;>
      simp [List.countP_append, List.countP_cons, hloop]

/-- C4 witness: a complete run — config present, successful setup with
an alias room id, one poll iteration, loop exit — closes exactly
once. -/
theorem close_called_once_witness :
    countClose (mainTrace
      ⟨"user", "password", "#room:example.org", "http://radio/api", true, true⟩
      ⟨CallRes.ok, CallRes.ok, CallRes.ok⟩
      [⟨Option.some (.dict [(.str "title", .str "Track 1")]), false,
        false⟩]) = 1 :=
  close_called_once
    ⟨"user", "password", "#room:example.org", "http://radio/api", true, true⟩
    ⟨CallRes.ok, CallRes.ok, CallRes.ok⟩
    [⟨Option.some (.dict [(.str "title", .str "Track 1")]), false, false⟩]
    (by decide)
